import Mathlib

/-!
Verification of `VolumeMaskAndSlice.cxx`, a single-file VTK example that
reads a volume, rasterizes a cylindrical binary mask over it, masks a 2D
slice via a shift-scale/multiply filter chain, and displays the result.

The embedding models the program's own computations exactly (the volume
parameter fetch, the center/radius computation, the mask-filling triple
loop with its pointer writes) over exact rationals; the VTK library
filters the program merely configures (`vtkCylinder`'s implicit function,
`vtkImageShiftScale`, `vtkImageMathematics`) are modelled pointwise from
the spec, as noted on each definition.
-/

namespace VolumeMaskAndSlice

/-- Parameters of the volume image read from the file, as fetched by
`GetOrigin`, `GetSpacing`, `GetExtent` at lines 41-44 of the source.
Doubles are modelled as exact rationals; extents are machine ints. -/
structure VolumeInfo where
  origin0 : ℚ
  origin1 : ℚ
  origin2 : ℚ
  spacing0 : ℚ
  spacing1 : ℚ
  spacing2 : ℚ
  extent0 : ℤ
  extent1 : ℤ
  extent2 : ℤ
  extent3 : ℤ
  extent4 : ℤ
  extent5 : ℤ
deriving DecidableEq, Repr

/-- `dims[0]` as returned by `vtkImageData::GetDimensions`:
`extent[1] - extent[0] + 1`. -/
def dims0 (vi : VolumeInfo) : ℤ := vi.extent1 - vi.extent0 + 1

/-- `dims[1] = extent[3] - extent[2] + 1`. -/
def dims1 (vi : VolumeInfo) : ℤ := vi.extent3 - vi.extent2 + 1

/-- `dims[2] = extent[5] - extent[4] + 1`. -/
def dims2 (vi : VolumeInfo) : ℤ := vi.extent5 - vi.extent4 + 1

/-- Number of x iterations of the mask loop (`x < dims[0]` with `int` x
starting at 0; a non-positive dim yields zero iterations). -/
def natDims0 (vi : VolumeInfo) : ℕ := (dims0 vi).toNat

/-- Number of y iterations of the mask loop. -/
def natDims1 (vi : VolumeInfo) : ℕ := (dims1 vi).toNat

/-- Number of z iterations of the mask loop. -/
def natDims2 (vi : VolumeInfo) : ℕ := (dims2 vi).toNat

/-- `center[0] = origin[0] + spacing[0] * 0.5 * (extent[0] + extent[1])`
(source line 50). -/
def center0 (vi : VolumeInfo) : ℚ :=
  vi.origin0 + vi.spacing0 * (1 / 2) * ((vi.extent0 : ℚ) + (vi.extent1 : ℚ))

/-- `center[1] = origin[1] + spacing[1] * 0.5 * (extent[2] + extent[3])`. -/
def center1 (vi : VolumeInfo) : ℚ :=
  vi.origin1 + vi.spacing1 * (1 / 2) * ((vi.extent2 : ℚ) + (vi.extent3 : ℚ))

/-- `center[2] = origin[2] + spacing[2] * 0.5 * (extent[4] + extent[5])`. -/
def center2 (vi : VolumeInfo) : ℚ :=
  vi.origin2 + vi.spacing2 * (1 / 2) * ((vi.extent4 : ℚ) + (vi.extent5 : ℚ))

/-- `double radius = dims[0]/2.0 - 50;` (source line 63). -/
def radius (vi : VolumeInfo) : ℚ := (dims0 vi : ℚ) / 2 - 50

/-- Modelled from the spec: `vtkCylinder::EvaluateFunction`, the library
implicit function the program configures with `SetCenter`/`SetRadius`
(source lines 67-69), is not part of this repository.  Per the spec it is
an `x² + z² - r²`-style implicit distance function relative to a center
point and radius: the cylinder's axis is parallel to the y axis, so the
value at point `(p0, p1, p2)` is `(p0 - c0)² + (p2 - c2)² - r²`
(negative inside, zero on the surface, positive outside). -/
def vtkCylinderEvaluateFunction (c0 _c1 c2 r p0 _p1 p2 : ℚ) : ℚ :=
  (p0 - c0) ^ 2 + (p2 - c2) ^ 2 - r ^ 2

/-- The implicit-function value the mask loop tests for voxel index
`(x, y, z)`: the source calls `EvaluateFunction(x, z, y)` (line 81), so
the evaluation point is the integer index triple with its second and
third coordinates being the z and y loop indices respectively, while the
cylinder center is the physical-space `center` and the radius is
`dims[0]/2.0 - 50`. -/
def cylEvalAt (vi : VolumeInfo) (x y z : ℕ) : ℚ :=
  vtkCylinderEvaluateFunction (center0 vi) (center1 vi) (center2 vi)
    (radius vi) (x : ℚ) (z : ℚ) (y : ℚ)

/-- The byte the loop body writes for voxel `(x, y, z)`: 0 when the
implicit function is positive (point outside the cylinder), 255
otherwise (source lines 81-89). -/
def maskValue (vi : VolumeInfo) (x y z : ℕ) : ℕ :=
  if 0 < cylEvalAt vi x y z then 0 else 255

/-- The bytes written by one full innermost x loop at fixed `(y, z)`,
in increasing x order. -/
def maskRow (vi : VolumeInfo) (y z : ℕ) : List ℕ :=
  (List.range (natDims0 vi)).map (fun x => maskValue vi x y z)

/-- The bytes written by one full middle y loop at fixed `z`:
rows concatenated in increasing y order. -/
def maskPlane (vi : VolumeInfo) (z : ℕ) : List ℕ :=
  (List.range (natDims1 vi)).flatMap (fun y => maskRow vi y z)

/-- All bytes written through the incremented pointer by the triple loop
of source lines 75-92, in write order: x fastest, then y, then z. -/
def maskBytes (vi : VolumeInfo) : List ℕ :=
  (List.range (natDims2 vi)).flatMap (fun z => maskPlane vi z)

/-- VTK scalar types relevant here (`VTK_UNSIGNED_CHAR` is the one the
mask allocates). -/
inductive VTKScalarType where
  | unsignedChar
  | unsignedShort
  | short
  | float
  | double
deriving DecidableEq, Repr

/-- The mask `vtkImageData` as configured at source lines 54-59: the
fields set by `SetDimensions`, `SetOrigin`, `SetSpacing`, `SetExtent`,
`AllocateScalars`, plus the scalar buffer the loop fills.
`SetDimensions(dims)` sets the extent to `[0, dims-1]` per axis and the
subsequent `SetExtent(extent)` overwrites it with the volume's extent,
so the final extent is the volume's (and the dimensions follow from it). -/
structure MaskImage where
  mOrigin0 : ℚ
  mOrigin1 : ℚ
  mOrigin2 : ℚ
  mSpacing0 : ℚ
  mSpacing1 : ℚ
  mSpacing2 : ℚ
  mExtent0 : ℤ
  mExtent1 : ℤ
  mExtent2 : ℤ
  mExtent3 : ℤ
  mExtent4 : ℤ
  mExtent5 : ℤ
  scalarType : VTKScalarType
  components : ℕ
  data : List ℕ
deriving DecidableEq, Repr

/-- The mask image the program builds: origin
`(extent[0], extent[2], extent[4])` (source line 56), the volume's
spacing and extent, single-component `VTK_UNSIGNED_CHAR` scalars, and
the bytes written by the triple loop. -/
def buildMask (vi : VolumeInfo) : MaskImage :=
  { mOrigin0 := (vi.extent0 : ℚ)
    mOrigin1 := (vi.extent2 : ℚ)
    mOrigin2 := (vi.extent4 : ℚ)
    mSpacing0 := vi.spacing0
    mSpacing1 := vi.spacing1
    mSpacing2 := vi.spacing2
    mExtent0 := vi.extent0
    mExtent1 := vi.extent1
    mExtent2 := vi.extent2
    mExtent3 := vi.extent3
    mExtent4 := vi.extent4
    mExtent5 := vi.extent5
    scalarType := VTKScalarType.unsignedChar
    components := 1
    data := maskBytes vi }

/-- Physical position of one coordinate of a voxel of an image: origin
plus spacing times the (extent-space) index. -/
def voxelCoord (o s : ℚ) (i : ℤ) : ℚ := o + s * (i : ℚ)

/-- The volume's origin agrees with the triple of minimum extent indices
that the program passes to the mask's `SetOrigin`. -/
def maskOriginMatchesVolume (vi : VolumeInfo) : Prop :=
  vi.origin0 = (vi.extent0 : ℚ) ∧ vi.origin1 = (vi.extent2 : ℚ) ∧
    vi.origin2 = (vi.extent4 : ℚ)

instance (vi : VolumeInfo) : Decidable (maskOriginMatchesVolume vi) := by
  unfold maskOriginMatchesVolume
  infer_instance

/-- Bytes allocated for the mask by
`AllocateScalars(VTK_UNSIGNED_CHAR, 1)`: one 1-byte component per voxel,
`dims[0] * dims[1] * dims[2]` in all. -/
def allocSize (vi : VolumeInfo) : ℕ :=
  natDims0 vi * natDims1 vi * natDims2 vi

/-- Byte offset, from the start of the allocated buffer, of
`GetScalarPointer(0, 0, 0)` (source line 61): voxel `(i, j, k)` of an
image with extent `e` lives at flat offset
`(i - e[0]) + dims[0] * ((j - e[2]) + dims[1] * (k - e[4]))`. -/
def startOffset (vi : VolumeInfo) : ℤ :=
  (0 - vi.extent0) + dims0 vi * ((0 - vi.extent2) + dims1 vi * (0 - vi.extent4))

/-- `GetScalarPointer(0, 0, 0)` is valid (non-null) exactly when the
index `(0, 0, 0)` lies inside the image extent. -/
def scalarPointerValid (vi : VolumeInfo) : Prop :=
  vi.extent0 ≤ 0 ∧ 0 ≤ vi.extent1 ∧ vi.extent2 ≤ 0 ∧ 0 ≤ vi.extent3 ∧
    vi.extent4 ≤ 0 ∧ 0 ≤ vi.extent5

instance (vi : VolumeInfo) : Decidable (scalarPointerValid vi) := by
  unfold scalarPointerValid
  infer_instance

/-- Buffer offset of the `i`-th write of the loop: the pointer starts at
`GetScalarPointer(0,0,0)` and is incremented once per write. -/
def writeOffset (vi : VolumeInfo) (i : ℕ) : ℤ := startOffset vi + (i : ℤ)

/-- The `i`-th write lands inside the allocated mask buffer. -/
def writeInBounds (vi : VolumeInfo) (i : ℕ) : Prop :=
  0 ≤ writeOffset vi i ∧ writeOffset vi i < (allocSize vi : ℤ)

instance (vi : VolumeInfo) (i : ℕ) : Decidable (writeInBounds vi i) := by
  unfold writeInBounds
  infer_instance

/-- Modelled from the spec: one pixel of `vtkImageShiftScale`'s output
(source lines 117-122), a library filter not in this repository.  With
`Shift = 0` and `Scale = 1/255` it maps a resliced-mask pixel `m` to
`(m + 0) * (1/255)` converted to the configured output scalar type (the
volume slice's type); `conv` models that scalar-type conversion. -/
def shiftScaleOutput (conv : ℚ → ℚ) (maskPix : ℚ) : ℚ :=
  conv ((maskPix + 0) * (1 / 255))

/-- Modelled from the spec: one pixel of `vtkImageMathematics` with
`SetOperationToMultiply` (source lines 126-129), a library filter not in
this repository: the product of its two input pixels. -/
def imageMathematicsMultiply (volPix scaledMaskPix : ℚ) : ℚ :=
  volPix * scaledMaskPix

/-- One pixel of the masked volume slice that is handed to the display
chain: the resliced-volume pixel times the shift-scaled resliced-mask
pixel. -/
def maskedSlicePixel (conv : ℚ → ℚ) (volPix maskPix : ℚ) : ℚ :=
  imageMathematicsMultiply volPix (shiftScaleOutput conv maskPix)

/-- The successive top-level phases of `main`, in source order. -/
inductive Step where
  | loadFile
  | computeMask
  | configureResliceChain
  | configureMapperAndTransfer
  | configureRenderers
  | runEventLoop
deriving DecidableEq, Repr

/-- `EXIT_SUCCESS` on this platform. -/
def EXIT_SUCCESS : ℕ := 0

/-- Observable behaviour of one run of `main`: which files it opens, the
phases it executes in order, the mask it builds, and its exit code. -/
structure ProgramRun where
  filesRead : List String
  steps : List Step
  mask : MaskImage
  exitCode : ℕ
deriving DecidableEq, Repr

/-- One run of `main` (source lines 31-204), as a function of the
command-line arguments, the environment, and the volume parameters read
from the file.  `main(int, char**)` leaves both parameters unnamed and
the body never consults them nor the environment; the file name is the
string literal `"Data/CTHead.vti"` (line 35); the function is total and
its only return statement is `return EXIT_SUCCESS` (line 203). -/
def programRun (_argv : List String) (_env : List (String × String))
    (vol : VolumeInfo) : ProgramRun :=
  { filesRead := ["Data/CTHead.vti"]
    steps := [Step.loadFile, Step.computeMask, Step.configureResliceChain,
      Step.configureMapperAndTransfer, Step.configureRenderers,
      Step.runEventLoop]
    mask := buildMask vol
    exitCode := EXIT_SUCCESS }

/-- Concrete example volume: origin 0, unit spacing, extent
`[0,1] × [0,1] × [0,0]` (a 2 × 2 × 1 grid). -/
def viUnit : VolumeInfo := ⟨0, 0, 0, 1, 1, 1, 0, 1, 0, 1, 0, 0⟩

/-- Concrete example volume chosen so that voxel `(0, 0, 0)` lies exactly
on the cylinder surface: origin `(97/2, 0, 0)`, unit spacing, extent
`[0,1] × [0,1] × [0,0]`; then `center[0] = 49`, `center[2] = 0`,
`radius = -49`, and the implicit function vanishes at `(0, 0, 0)`. -/
def viSurf : VolumeInfo := ⟨97 / 2, 0, 0, 1, 1, 1, 0, 1, 0, 1, 0, 0⟩

/-- Concrete example volume whose extent does not start at index 0:
extent `[-1,0] × [-1,0] × [-1,0]` (a 2 × 2 × 2 grid). -/
def viBad : VolumeInfo := ⟨0, 0, 0, 1, 1, 1, -1, 0, -1, 0, -1, 0⟩

/-- Concrete example volume whose origin `(5, 0, 0)` differs from its
minimum extent indices `(0, 0, 0)`. -/
def viOff : VolumeInfo := ⟨5, 0, 0, 1, 1, 1, 0, 1, 0, 1, 0, 0⟩

/-- Length of a `flatMap` over `List.range` whose pieces all have the
same length `L`. -/
lemma range_flatMap_const_length {α : Type} (f : ℕ → List α) (L : ℕ) :
    ∀ n : ℕ, (∀ i, i < n → (f i).length = L) →
      ((List.range n).flatMap f).length = n * L := by
  intro n
  induction n with
  | zero => intro _; simp
  | succ m ih =>
      intro h
      rw [List.range_succ, List.flatMap_append, List.length_append,
        ih (fun i hi => h i (Nat.lt_succ_of_lt hi)), List.flatMap_cons,
        List.flatMap_nil, List.append_nil, h m (Nat.lt_succ_self m),
        Nat.succ_mul]

/-- Element lookup in a `flatMap` over `List.range` with constant piece
length `L`: the element at flat index `k * L + r` is element `r` of
piece `k`. -/
lemma range_flatMap_const_getElem {α : Type} (f : ℕ → List α) (L : ℕ) :
    ∀ n k r : ℕ, (∀ i, i < n → (f i).length = L) → k < n → r < L →
      ((List.range n).flatMap f)[k * L + r]? = (f k)[r]? := by
  intro n
  induction n with
  | zero => intro k r _ hk _; exact absurd hk (Nat.not_lt_zero k)
  | succ m ih =>
      intro k r h hk hr
      have hm : ∀ i, i < m → (f i).length = L :=
        fun i hi => h i (Nat.lt_succ_of_lt hi)
      have hlen : ((List.range m).flatMap f).length = m * L :=
        range_flatMap_const_length f L m hm
      rw [List.range_succ, List.flatMap_append, List.flatMap_cons,
        List.flatMap_nil, List.append_nil, List.getElem?_append]
      rcases Nat.lt_succ_iff_lt_or_eq.mp hk with hkm | hkm
      · have hidx : k * L + r < m * L := by
          have h1 : k * L + r < (k + 1) * L := by
            rw [Nat.succ_mul]; exact Nat.add_lt_add_left hr _
          exact lt_of_lt_of_le h1 (Nat.mul_le_mul_right L hkm)
        rw [if_pos (by rw [hlen]; exact hidx)]
        exact ih k r hm hkm hr
      · subst hkm
        rw [if_neg (by rw [hlen]; exact Nat.not_lt.mpr (Nat.le_add_right _ _)),
          hlen]
        congr 1
        omega

/-- A row has `dims[0]` bytes. -/
lemma maskRow_length (vi : VolumeInfo) (y z : ℕ) :
    (maskRow vi y z).length = natDims0 vi := by
  simp [maskRow]

/-- A plane has `dims[1] * dims[0]` bytes. -/
lemma maskPlane_length (vi : VolumeInfo) (z : ℕ) :
    (maskPlane vi z).length = natDims1 vi * natDims0 vi :=
  range_flatMap_const_length _ _ _ (fun i _ => maskRow_length vi i z)

/-- The whole loop writes `dims[2] * (dims[1] * dims[0])` bytes. -/
lemma maskBytes_length (vi : VolumeInfo) :
    (maskBytes vi).length = natDims2 vi * (natDims1 vi * natDims0 vi) :=
  range_flatMap_const_length _ _ _ (fun i _ => maskPlane_length vi i)

/-- Element `x` of a row is the loop-body byte for `(x, y, z)`. -/
lemma maskRow_getElem (vi : VolumeInfo) (x y z : ℕ) (hx : x < natDims0 vi) :
    (maskRow vi y z)[x]? = some (maskValue vi x y z) := by
  rw [maskRow, List.getElem?_map, List.getElem?_range hx, Option.map_some']

/-- Element `y * dims[0] + x` of a plane is the loop-body byte for
`(x, y, z)`. -/
lemma maskPlane_getElem (vi : VolumeInfo) (x y z : ℕ)
    (hx : x < natDims0 vi) (hy : y < natDims1 vi) :
    (maskPlane vi z)[y * natDims0 vi + x]? = some (maskValue vi x y z) := by
  rw [maskPlane,
    range_flatMap_const_getElem _ (natDims0 vi) (natDims1 vi) y x
      (fun i _ => maskRow_length vi i z) hy hx]
  exact maskRow_getElem vi x y z hx

/-- The byte at flat index `x + dims[0] * (y + dims[1] * z)` of the full
write sequence is the loop-body byte for voxel `(x, y, z)`: the loop
fills the buffer in x-fastest, then y, then z order. -/
lemma maskBytes_getElem (vi : VolumeInfo) (x y z : ℕ)
    (hx : x < natDims0 vi) (hy : y < natDims1 vi) (hz : z < natDims2 vi) :
    (maskBytes vi)[x + natDims0 vi * (y + natDims1 vi * z)]? =
      some (maskValue vi x y z) := by
  have harith : x + natDims0 vi * (y + natDims1 vi * z) =
      z * (natDims1 vi * natDims0 vi) + (y * natDims0 vi + x) := by ring
  have hr : y * natDims0 vi + x < natDims1 vi * natDims0 vi := by
    have h1 : y * natDims0 vi + x < (y + 1) * natDims0 vi := by
      rw [Nat.succ_mul]; exact Nat.add_lt_add_left hx _
    exact lt_of_lt_of_le h1 (Nat.mul_le_mul_right _ hy)
  rw [harith, maskBytes,
    range_flatMap_const_getElem _ (natDims1 vi * natDims0 vi) (natDims2 vi)
      z (y * natDims0 vi + x) (fun i _ => maskPlane_length vi i) hz hr]
  exact maskPlane_getElem vi x y z hx hy

/-- Every byte the loop writes is 0 or 255. -/
lemma maskValue_eq_zero_or_255 (vi : VolumeInfo) (x y z : ℕ) :
    maskValue vi x y z = 0 ∨ maskValue vi x y z = 255 := by
  unfold maskValue
  split
  · exact Or.inl rfl
  · exact Or.inr rfl

/-- Every byte of the filled mask buffer is 0 or 255. -/
lemma mem_maskBytes_eq_zero_or_255 (vi : VolumeInfo) :
    ∀ v ∈ maskBytes vi, v = 0 ∨ v = 255 := by
  intro v hv
  simp only [maskBytes, maskPlane, maskRow, List.mem_flatMap, List.mem_map,
    List.mem_range] at hv
  obtain ⟨z, _, y, _, x, _, rfl⟩ := hv
  exact maskValue_eq_zero_or_255 vi x y z

/-- On `viUnit`, voxel `(0,0,0)` evaluates inside the cylinder:
`(0 - 1/2)² + 0² - (-49)² = 1/4 - 2401 ≤ 0`. -/
lemma viUnit_voxel000_inside : cylEvalAt viUnit 0 0 0 ≤ 0 := by
  norm_num [cylEvalAt, vtkCylinderEvaluateFunction, center0, center1, center2,
    radius, dims0, viUnit]

/-- On `viSurf`, voxel `(0,0,0)` lies exactly on the cylinder surface:
`(0 - 49)² + 0² - (-49)² = 0`. -/
lemma viSurf_voxel000_on_surface : cylEvalAt viSurf 0 0 0 = 0 := by
  norm_num [cylEvalAt, vtkCylinderEvaluateFunction, center0, center1, center2,
    radius, dims0, viSurf]

/-- Claim C1: for every voxel of the mask grid, if the voxel's
implicit-function evaluation point lies within the cylinder's radius of
the cylinder's center (the cylinder being centered at the computed
volume center with radius `dims[0]/2 - 50`, so the evaluation is
non-positive), the byte the loop stores for it is 255, and every other
voxel's byte is 0. -/
theorem mask_within_cylinder_255_outside_0 (vi : VolumeInfo) (x y z : ℕ)
    (hx : x < natDims0 vi) (hy : y < natDims1 vi) (hz : z < natDims2 vi) :
    (cylEvalAt vi x y z ≤ 0 →
      (maskBytes vi)[x + natDims0 vi * (y + natDims1 vi * z)]? = some 255) ∧
    (0 < cylEvalAt vi x y z →
      (maskBytes vi)[x + natDims0 vi * (y + natDims1 vi * z)]? = some 0) := by
  have hget := maskBytes_getElem vi x y z hx hy hz
  constructor
  · intro hin
    rw [hget, maskValue, if_neg (not_lt.mpr hin)]
  · intro hout
    rw [hget, maskValue, if_pos hout]

/-- Witness for C1 at `viUnit`, voxel `(0,0,0)`: the point is inside the
cylinder and the stored byte is 255. -/
theorem mask_within_cylinder_255_outside_0_witness :
    (maskBytes viUnit)[0 + natDims0 viUnit * (0 + natDims1 viUnit * 0)]? =
      some 255 :=
  (mask_within_cylinder_255_outside_0 viUnit 0 0 0 (by decide) (by decide)
    (by decide)).1 viUnit_voxel000_inside

/-- Claim C2: a pixel of the masked slice handed to the display equals
the resliced-volume pixel times the resliced-mask pixel scaled by 1/255;
in particular a pixel with resliced mask 0 becomes 0 and a pixel with
resliced mask 255 keeps the volume slice's value.  `conv` is the
conversion to the volume slice's scalar type that `vtkImageShiftScale`
applies; the hypothesis states it represents the scaled mask value
exactly. -/
theorem masked_slice_pixel_product (conv : ℚ → ℚ) (v m : ℚ)
    (hconv : conv (m * (1 / 255)) = m * (1 / 255)) :
    maskedSlicePixel conv v m = v * (m * (1 / 255)) ∧
    (m = 0 → maskedSlicePixel conv v m = 0) ∧
    (m = 255 → maskedSlicePixel conv v m = v) := by
  have hbase : maskedSlicePixel conv v m = v * (m * (1 / 255)) := by
    rw [maskedSlicePixel, imageMathematicsMultiply, shiftScaleOutput,
      add_zero, hconv]
  refine ⟨hbase, ?_, ?_⟩
  · intro hm
    rw [hbase, hm]
    ring
  · intro hm
    rw [hbase, hm]
    norm_num

/-- Witness for C2 with the identity conversion (an exactly represented
scalar type), volume pixel 7 and mask pixel 255. -/
theorem masked_slice_pixel_product_witness :
    maskedSlicePixel id 7 255 = 7 * ((255 : ℚ) * (1 / 255)) :=
  (masked_slice_pixel_product id 7 255 rfl).1

/-- Claim C3: a voxel at which the cylinder's implicit function
evaluates to exactly 0 (on the cylinder surface) is assigned byte 255:
the assignment is 255 for inside-or-on and 0 strictly outside. -/
theorem mask_surface_voxel_255 (vi : VolumeInfo) (x y z : ℕ)
    (hx : x < natDims0 vi) (hy : y < natDims1 vi) (hz : z < natDims2 vi)
    (hsurf : cylEvalAt vi x y z = 0) :
    (maskBytes vi)[x + natDims0 vi * (y + natDims1 vi * z)]? = some 255 := by
  rw [maskBytes_getElem vi x y z hx hy hz, maskValue,
    if_neg (not_lt.mpr (le_of_eq hsurf))]

/-- Witness for C3 at `viSurf`, voxel `(0,0,0)`, which lies exactly on
the cylinder surface and stores 255. -/
theorem mask_surface_voxel_255_witness :
    (maskBytes viSurf)[0 + natDims0 viSurf * (0 + natDims1 viSurf * 0)]? =
      some 255 :=
  mask_surface_voxel_255 viSurf 0 0 0 (by decide) (by decide) (by decide)
    viSurf_voxel000_on_surface

/-- Claim C4: the mask grid is same-shaped as the volume and of byte
type: identical extent, identical dimensions, identical spacing,
single-component `VTK_UNSIGNED_CHAR` scalars, and every stored scalar
fits in an unsigned 8-bit value. -/
theorem mask_same_shape_byte_type (vi : VolumeInfo) :
    ((buildMask vi).mExtent0 = vi.extent0 ∧ (buildMask vi).mExtent1 = vi.extent1 ∧
     (buildMask vi).mExtent2 = vi.extent2 ∧ (buildMask vi).mExtent3 = vi.extent3 ∧
     (buildMask vi).mExtent4 = vi.extent4 ∧ (buildMask vi).mExtent5 = vi.extent5) ∧
    ((buildMask vi).mExtent1 - (buildMask vi).mExtent0 + 1 = dims0 vi ∧
     (buildMask vi).mExtent3 - (buildMask vi).mExtent2 + 1 = dims1 vi ∧
     (buildMask vi).mExtent5 - (buildMask vi).mExtent4 + 1 = dims2 vi) ∧
    ((buildMask vi).mSpacing0 = vi.spacing0 ∧
     (buildMask vi).mSpacing1 = vi.spacing1 ∧
     (buildMask vi).mSpacing2 = vi.spacing2) ∧
    (buildMask vi).scalarType = VTKScalarType.unsignedChar ∧
    (buildMask vi).components = 1 ∧
    (buildMask vi).data.Forall (fun v => v < 256) := by
  refine ⟨⟨rfl, rfl, rfl, rfl, rfl, rfl⟩, ⟨rfl, rfl, rfl⟩, ⟨rfl, rfl, rfl⟩,
    rfl, rfl, ?_⟩
  rw [List.forall_iff_forall_mem]
  intro v hv
  rcases mem_maskBytes_eq_zero_or_255 vi v hv with h | h <;> omega

/-- Claim C5: the loop evaluates the cylinder implicit function at the
integer index point `(x, z, y)` — the y and z coordinates swapped, in
index space rather than at the voxel's physical location — while the
cylinder's center is computed in physical coordinates from origin,
spacing, and extent, and the stored byte is 0 or 255 accordingly. -/
theorem mask_eval_at_swapped_index_point (vi : VolumeInfo) (x y z : ℕ)
    (hx : x < natDims0 vi) (hy : y < natDims1 vi) (hz : z < natDims2 vi) :
    (maskBytes vi)[x + natDims0 vi * (y + natDims1 vi * z)]? =
      some (if 0 < vtkCylinderEvaluateFunction
          (vi.origin0 + vi.spacing0 * (1 / 2) * ((vi.extent0 : ℚ) + (vi.extent1 : ℚ)))
          (vi.origin1 + vi.spacing1 * (1 / 2) * ((vi.extent2 : ℚ) + (vi.extent3 : ℚ)))
          (vi.origin2 + vi.spacing2 * (1 / 2) * ((vi.extent4 : ℚ) + (vi.extent5 : ℚ)))
          (((vi.extent1 - vi.extent0 + 1 : ℤ) : ℚ) / 2 - 50)
          (x : ℚ) (z : ℚ) (y : ℚ)
        then 0 else 255) :=
  maskBytes_getElem vi x y z hx hy hz

/-- Witness for C5 at `viUnit`, voxel `(1,0,0)`. -/
theorem mask_eval_at_swapped_index_point_witness :
    (maskBytes viUnit)[1 + natDims0 viUnit * (0 + natDims1 viUnit * 0)]? =
      some (if 0 < vtkCylinderEvaluateFunction
          (viUnit.origin0 + viUnit.spacing0 * (1 / 2) *
            ((viUnit.extent0 : ℚ) + (viUnit.extent1 : ℚ)))
          (viUnit.origin1 + viUnit.spacing1 * (1 / 2) *
            ((viUnit.extent2 : ℚ) + (viUnit.extent3 : ℚ)))
          (viUnit.origin2 + viUnit.spacing2 * (1 / 2) *
            ((viUnit.extent4 : ℚ) + (viUnit.extent5 : ℚ)))
          (((viUnit.extent1 - viUnit.extent0 + 1 : ℤ) : ℚ) / 2 - 50)
          ((1 : ℕ) : ℚ) ((0 : ℕ) : ℚ) ((0 : ℕ) : ℚ)
        then 0 else 255) :=
  mask_eval_at_swapped_index_point viUnit 1 0 0 (by decide) (by decide)
    (by decide)

/-- Claim C6: the mask's origin is the triple
`(extent[0], extent[2], extent[4])` of minimum extent indices, not the
volume's own origin; whenever the volume's origin differs from that
triple, every voxel index has different physical positions in the mask
and in the volume (the two images are not co-located). -/
theorem mask_origin_extent_mins_not_colocated (vi : VolumeInfo) (i j k : ℤ)
    (h : ¬ maskOriginMatchesVolume vi) :
    ((buildMask vi).mOrigin0 = (vi.extent0 : ℚ) ∧
     (buildMask vi).mOrigin1 = (vi.extent2 : ℚ) ∧
     (buildMask vi).mOrigin2 = (vi.extent4 : ℚ)) ∧
    ¬ (voxelCoord (buildMask vi).mOrigin0 (buildMask vi).mSpacing0 i =
         voxelCoord vi.origin0 vi.spacing0 i ∧
       voxelCoord (buildMask vi).mOrigin1 (buildMask vi).mSpacing1 j =
         voxelCoord vi.origin1 vi.spacing1 j ∧
       voxelCoord (buildMask vi).mOrigin2 (buildMask vi).mSpacing2 k =
         voxelCoord vi.origin2 vi.spacing2 k) := by
  refine ⟨⟨rfl, rfl, rfl⟩, ?_⟩
  intro hco
  apply h
  obtain ⟨h0, h1, h2⟩ := hco
  simp only [voxelCoord, buildMask] at h0 h1 h2
  exact ⟨(add_right_cancel h0).symm, (add_right_cancel h1).symm,
    (add_right_cancel h2).symm⟩

/-- Witness for C6 at `viOff` (volume origin `(5,0,0)`, extent minima
`(0,0,0)`): the physical positions of voxel index `(0,0,0)` differ. -/
theorem mask_origin_extent_mins_not_colocated_witness :
    ¬ (voxelCoord (buildMask viOff).mOrigin0 (buildMask viOff).mSpacing0 0 =
         voxelCoord viOff.origin0 viOff.spacing0 0 ∧
       voxelCoord (buildMask viOff).mOrigin1 (buildMask viOff).mSpacing1 0 =
         voxelCoord viOff.origin1 viOff.spacing1 0 ∧
       voxelCoord (buildMask viOff).mOrigin2 (buildMask viOff).mSpacing2 0 =
         voxelCoord viOff.origin2 viOff.spacing2 0) :=
  (mask_origin_extent_mins_not_colocated viOff 0 0 0 (by decide)).2

/-- Claim C7 (amended): provided the volume's extent minima are all 0 —
as they are for the expected dataset, and as `GetScalarPointer(0,0,0)`
presumes — the triple loop writes exactly `dims[0]*dims[1]*dims[2]`
bytes through the incremented pointer, every write lands inside the
allocated mask buffer, and the byte for voxel `(x, y, z)` is at flat
offset `x + dims[0]*(y + dims[1]*z)` (x-fastest, then y, then z; each
voxel written exactly once). -/
theorem mask_loop_writes_exact_and_in_bounds (vi : VolumeInfo)
    (h0 : vi.extent0 = 0) (h2 : vi.extent2 = 0) (h4 : vi.extent4 = 0) :
    (maskBytes vi).length = allocSize vi ∧
    (∀ i, i < (maskBytes vi).length → writeInBounds vi i) ∧
    (∀ x y z : ℕ, x < natDims0 vi → y < natDims1 vi → z < natDims2 vi →
      (maskBytes vi)[x + natDims0 vi * (y + natDims1 vi * z)]? =
        some (maskValue vi x y z)) := by
  have hlen : (maskBytes vi).length = allocSize vi := by
    rw [maskBytes_length, allocSize]; ring
  refine ⟨hlen, ?_, ?_⟩
  · intro i hi
    have hso : startOffset vi = 0 := by simp [startOffset, h0, h2, h4]
    have hi' : i < allocSize vi := hlen ▸ hi
    unfold writeInBounds writeOffset
    rw [hso]
    omega
  · intro x y z hx hy hz
    exact maskBytes_getElem vi x y z hx hy hz

/-- Witness for C7 (amended) at `viUnit`: the loop writes exactly
`allocSize viUnit` bytes and write 0 is in bounds. -/
theorem mask_loop_writes_exact_and_in_bounds_witness :
    (maskBytes viUnit).length = allocSize viUnit ∧ writeInBounds viUnit 0 :=
  ⟨(mask_loop_writes_exact_and_in_bounds viUnit rfl rfl rfl).1,
   (mask_loop_writes_exact_and_in_bounds viUnit rfl rfl rfl).2.1 0
     (by decide)⟩

/-- Counterexample to Claim C7 as stated: for the volume `viBad` with
extent `[-1,0]³`, `GetScalarPointer(0,0,0)` starts at buffer offset 7 of
the 8-byte allocation, so the loop's writes after the first run off the
end of the buffer: the write count is right but not every write is in
bounds. -/
theorem mask_loop_write_bounds_counterexample :
    ¬ ((maskBytes viBad).length = allocSize viBad ∧
       ∀ i, i < (maskBytes viBad).length → writeInBounds viBad i) := by
  intro hcl
  have h1 := hcl.2 1 (by decide)
  revert h1
  decide

/-- Claim C8: the program reads exactly the fixed path
`"Data/CTHead.vti"`, and two runs with different command-line arguments
or environments but the same file contents behave identically. -/
theorem fixed_input_and_independent_of_argv_env :
    ∀ (argv argv' : List String) (env env' : List (String × String))
      (vol : VolumeInfo),
      (programRun argv env vol).filesRead = ["Data/CTHead.vti"] ∧
      programRun argv env vol = programRun argv' env' vol :=
  fun _ _ _ _ _ => ⟨rfl, rfl⟩

/-- Claim C9: the program checks nothing about the result of reading the
file or of any pipeline step — its phase sequence and exit code are the
same for every volume — and whenever `main` returns it returns
`EXIT_SUCCESS`. -/
theorem no_error_checks_exit_success :
    ∀ (argv : List String) (env : List (String × String))
      (vol vol' : VolumeInfo),
      (programRun argv env vol).exitCode = EXIT_SUCCESS ∧
      (programRun argv env vol).steps = (programRun argv env vol').steps ∧
      (programRun argv env vol).exitCode =
        (programRun argv env vol').exitCode :=
  fun _ _ _ _ => ⟨rfl, rfl, rfl⟩

/-- Claim C10: the program's phases occur in the fixed order: load file,
compute the mask buffer, configure the reslice/arithmetic filter chain,
configure the GPU mapper and transfer functions, configure the renderers
and interactor, and run the event loop last. -/
theorem phases_in_source_order :
    ∀ (argv : List String) (env : List (String × String))
      (vol : VolumeInfo),
      (programRun argv env vol).steps =
        [Step.loadFile, Step.computeMask, Step.configureResliceChain,
         Step.configureMapperAndTransfer, Step.configureRenderers,
         Step.runEventLoop] :=
  fun _ _ _ => rfl

end VolumeMaskAndSlice
